import Mathlib

/-!
Verification of `src/browser/linux/libnotify_notification.cc` (brightray).

The C++ file drives a single desktop notification through a show/dismiss
lifecycle against a dynamically loaded libnotify service.  We embed the
observable behaviour of its functions as pure Lean functions:

* the live capability set returned by `notify_get_server_caps` is a
  `List String`;
* the dynamic loader, the `notify_is_initted` / `notify_init` outcomes and
  the success of native show/close calls are oracles (`String → Bool`
  resp. `Bool` parameters);
* the two `static bool` locals of `NotifierSupportsActions` are an explicit
  `ActionCacheState` threaded through calls;
* GLib quark interning (`g_quark_from_string`) is an explicit intern table;
* delegate callbacks are recorded as emitted `Signal`s.
-/

namespace Brightray

/-- The four one-shot delegate signals of the notification lifecycle. -/
inductive Signal
  | displayed
  | failed
  | dismissed
  | clicked
deriving DecidableEq, BEq, Repr

/-- Embedding of GLib `g_strcmp0` restricted to non-null C strings: returns
`0` iff the strings are equal, otherwise a sign. -/
def g_strcmp0 (a b : String) : Int :=
  if a = b then 0 else if a < b then -1 else 1

/-- Embedding of `g_list_find_custom(capabilities, x, cmp)`: first list
element on which `cmp` answers `0`, or `none` (the C call returns `NULL`,
in particular on the empty list). -/
def g_list_find_custom (l : List String) (x : String)
    (cmp : String → String → Int) : Option String :=
  l.find? (fun y => cmp y x == 0)

/-- Embedding of the anonymous-namespace `HasCapability` (lines 20-30):
`result` starts `false`, is set to `true` iff `g_list_find_custom` with
`g_strcmp0` finds the capability in the freshly queried list, and the list
is freed before returning. -/
def HasCapability (caps : List String) (capability : String) : Bool :=
  let result := false
  match g_list_find_custom caps capability g_strcmp0 with
  | some _ => true
  | none => result

/-- The two function-local `static bool` variables of
`NotifierSupportsActions` (lines 36-37). -/
structure ActionCacheState where
  notify_has_result : Bool
  notify_result : Bool
deriving DecidableEq, Repr

/-- Static initialisation of the two locals: both `false`. -/
def initialActionCacheState : ActionCacheState :=
  { notify_has_result := false, notify_result := false }

/-- Observable outcome of one call to `NotifierSupportsActions`: the boolean
answer, the static-variable state after the call, and how many live
capability queries (`notify_get_server_caps` round-trips) were made. -/
structure NSAResult where
  result : Bool
  state : ActionCacheState
  capQueries : Nat
deriving Repr

/-- Embedding of `NotifierSupportsActions` (lines 32-45): if the
`ELECTRON_USE_UBUNTU_NOTIFIER` environment variable is set, return `false`
at once; else if `notify_has_result` holds, return the cached
`notify_result`; else compute `HasCapability "actions"`, store it in
`notify_result` (note: `notify_has_result` is never written) and return it. -/
def NotifierSupportsActions (env_ubuntu : Bool) (caps : List String)
    (st : ActionCacheState) : NSAResult :=
  if env_ubuntu then
    { result := false, state := st, capQueries := 0 }
  else if st.notify_has_result then
    { result := st.notify_result, state := st, capQueries := 0 }
  else
    let r := HasCapability caps "actions"
    { result := r, state := { st with notify_result := r }, capQueries := 1 }

/-- Modelled from the spec: the always-recompute reading of the
action-support predicate (spec 4.2) — `false` under the override flag,
otherwise exactly the live `HasCapability "actions"` answer, with no state. -/
def SupportsActionButtonsRecompute (env_ubuntu : Bool) (caps : List String) : Bool :=
  if env_ubuntu then false else HasCapability caps "actions"

/-- Run a sequence of `NotifierSupportsActions` calls (each with its own
override-flag value and live capability set), threading the static state. -/
def runCalls (calls : List (Bool × List String)) (st : ActionCacheState) :
    ActionCacheState :=
  match calls with
  | [] => st
  | c :: rest => runCalls rest (NotifierSupportsActions c.1 c.2 st).state

/-- The fixed candidate library names tried by `Initialize` (lines 65-67),
in source order. -/
def initCandidates : List String :=
  ["libnotify.so.4", "libnotify.so.1", "libnotify.so"]

/-- Short-circuit evaluation of `!Load(a) && !Load(b) && ...`: returns
whether some candidate loaded, together with the list of candidates on
which `Load` was actually attempted, in order. -/
def tryLoad (load : String → Bool) : List String → Bool × List String
  | [] => (false, [])
  | n :: rest =>
    if load n then (true, [n])
    else
      let r := tryLoad load rest
      (r.1, n :: r.2)

/-- Embedding of `LibnotifyNotification::Initialize` (lines 64-75).
`load` is the outcome of `libnotify_loader_.Load` per library name,
`is_initted` the answer of `notify_is_initted()`, and `init_ok` the
outcome of `notify_init(GetApplicationName().c_str())` (only consulted
when `is_initted` is false, by short-circuit `&&`). -/
def libnotifyInit (load : String → Bool) (is_initted init_ok : Bool) : Bool :=
  if !(tryLoad load initCandidates).1 then
    false
  else if !is_initted && !init_ok then
    false
  else
    true

/-- Position of the first occurrence of `s` in an intern table, if any. -/
def quarkLookup : List String → String → Option Nat
  | [], _ => none
  | x :: xs, s => if x = s then some 0 else (quarkLookup xs s).map (· + 1)

/-- Embedding of GLib `g_quark_from_string` on a non-null string: quarks are
small positive integers interned in a process-global table; a string already
in the table gets its existing quark, a new string is appended and gets the
next quark.  Returns the quark and the table after the call. -/
def g_quark_from_string (qt : List String) (s : String) : Nat × List String :=
  match quarkLookup qt s with
  | some i => (i + 1, qt)
  | none => (qt.length + 1, qt ++ [s])

/-- Observable outcome of one `LibnotifyNotification::Show` call
(lines 88-143). -/
structure ShowResult where
  /-- Native handle written to `notification_` by `notify_notification_new`. -/
  notification_ : Option Nat
  /-- A callback was connected to the "closed" signal. -/
  closedConnected : Bool
  /-- `notify_notification_add_action` was called (the single "View" action). -/
  actionAdded : Bool
  /-- `notify_notification_set_image_from_pixbuf` was called. -/
  imageAttached : Bool
  /-- `notify_notification_set_timeout(NOTIFY_EXPIRES_DEFAULT)` was called. -/
  timeoutSet : Bool
  /-- Quark assigned to the handle's "id" property, if any. -/
  idAssigned : Option Nat
  /-- Hint names set to "true" by `notify_notification_set_hint_string`. -/
  hints : List String
  /-- Quark intern table after the call. -/
  quarkTable : List String
  /-- `NotifierSupportsActions` static state after the call. -/
  cacheState : ActionCacheState
  /-- Delegate signals emitted during the call. -/
  signals : List Signal
deriving Repr

/-- Embedding of `LibnotifyNotification::Show` (lines 88-143).  Oracles:
`env_ubuntu` (whether `ELECTRON_USE_UBUNTU_NOTIFIER` is set), `caps` (the
capability set the live service reports during this call), `st` (the
static state of `NotifierSupportsActions`), `iconDrawsNothing`
(`icon.drawsNothing()`), `showError` (whether `notify_notification_show`
fills in a `GError`), `qt` (the quark intern table), `newHandle` (the
native pointer returned by `notify_notification_new`).
The delegate transitions `NotificationFailed` / `NotificationDisplayed`
are modelled from the spec as emitting exactly one `failed` resp.
`displayed` signal (the base-class helpers live outside this file's
sources; spec 4.3 step 7). -/
def Show (env_ubuntu : Bool) (caps : List String) (st : ActionCacheState)
    (title body : String) (tag : String) (iconDrawsNothing : Bool)
    (silent : Bool) (showError : Bool) (qt : List String) (newHandle : Nat) :
    ShowResult :=
  let nsa := NotifierSupportsActions env_ubuntu caps st
  let idqt : Option Nat × List String :=
    if tag = "" then (none, qt)
    else
      let q := g_quark_from_string qt tag
      (some q.1, q.2)
  let hints :=
    if HasCapability caps "append" then ["append"]
    else if HasCapability caps "x-canonical-append" then ["x-canonical-append"]
    else []
  let signals := if showError then [Signal.failed] else [Signal.displayed]
  { notification_ := some newHandle
    closedConnected := true
    actionAdded := nsa.result
    imageAttached := !iconDrawsNothing
    timeoutSet := !iconDrawsNothing
    idAssigned := idqt.1
    hints := hints
    quarkTable := idqt.2
    cacheState := nsa.state
    signals := signals }

/-- Observable outcome of `LibnotifyNotification::Dismiss` (lines 145-152). -/
structure DismissResult where
  /-- `Destroy()` was invoked (local forced teardown). -/
  destroyed : Bool
  /-- Delegate signals emitted during the call itself. -/
  signals : List Signal
deriving Repr

/-- Embedding of `LibnotifyNotification::Dismiss` (lines 145-152):
`notify_notification_close` is invoked; if it reports an error the error is
logged and freed and `Destroy()` is called; no delegate signal is emitted
by `Dismiss` itself in either case. -/
def Dismiss (closeError : Bool) : DismissResult :=
  if closeError then { destroyed := true, signals := [] }
  else { destroyed := false, signals := [] }

/-- Embedding of `LibnotifyNotification::OnNotificationClosed`
(lines 154-157): the "closed" callback unconditionally performs the
dismissed transition.  The base-class `NotificationDismissed` helper is
modelled from the spec as emitting exactly one `dismissed` signal. -/
def OnNotificationClosed : List Signal := [Signal.dismissed]

/-- Whole dismiss scenario (spec 4.3 `Dismiss`): on a native close error the
notification is immediately destroyed and the closed callback never runs;
on success the later asynchronous closed callback fires.  Returns all
signals of the scenario plus whether `Destroy()` ran. -/
def dismissScenario (closeError : Bool) : List Signal × Bool :=
  let d := Dismiss closeError
  if closeError then (d.signals, d.destroyed)
  else (d.signals ++ OnNotificationClosed, d.destroyed)

/-- Value of the `notification_` member right after the constructor
(lines 77-81): initialised to `nullptr`. -/
def ctorNotificationField : Option Nat := none

/-- Native GObject operations the destructor performs, with the instance
argument each receives (`none` = the C `NULL` pointer). -/
inductive GObjOp
  | disconnectByData (instObj : Option Nat)
  | unref (instObj : Option Nat)
deriving DecidableEq, Repr

/-- Embedding of `LibnotifyNotification::~LibnotifyNotification`
(lines 83-86): unconditionally calls
`g_signal_handlers_disconnect_by_data(notification_, this)` and then
`g_object_unref(notification_)` on whatever `notification_` holds. -/
def destructorOps (notification_ : Option Nat) : List GObjOp :=
  [GObjOp.disconnectByData notification_, GObjOp.unref notification_]

/-- Validity of a GObject call per the GLib API contract: both
`g_signal_handlers_disconnect_by_data` and `g_object_unref` require a
non-`NULL` object instance (`g_return_if_fail (G_IS_OBJECT (object))`);
passing `NULL` is an invalid operation (a GLib-CRITICAL assertion failure). -/
def gobjOpValid : GObjOp → Bool
  | GObjOp.disconnectByData h => h.isSome
  | GObjOp.unref h => h.isSome

/-! ## Helper lemmas -/

theorem g_strcmp0_beq_zero (a b : String) :
    (g_strcmp0 a b == 0) = decide (a = b) := by
  unfold g_strcmp0
  by_cases h : a = b
  · simp [h]
  · simp only [h, if_false, decide_eq_false h]
    split <;> decide

theorem hasCapability_iff_mem (caps : List String) (name : String) :
    HasCapability caps name = true ↔ name ∈ caps := by
  induction caps with
  | nil => simp [HasCapability, g_list_find_custom]
  | cons x xs ih =>
    by_cases hx : x = name
    · subst hx
      simp [HasCapability, g_list_find_custom, List.find?, g_strcmp0_beq_zero]
    · have hxne : (g_strcmp0 x name == 0) = false := by
        rw [g_strcmp0_beq_zero]; exact decide_eq_false hx
      simp only [HasCapability, g_list_find_custom, List.find?, hxne] at ih ⊢
      rw [List.mem_cons]
      constructor
      · intro h; exact Or.inr (ih.mp h)
      · intro h
        rcases h with h | h
        · exact absurd h.symm hx
        · exact ih.mpr h

theorem quarkLookup_get? {qt : List String} {s : String} {i : Nat}
    (h : quarkLookup qt s = some i) : qt.get? i = some s := by
  induction qt generalizing i with
  | nil => simp [quarkLookup] at h
  | cons x xs ih =>
    by_cases hx : x = s
    · simp [quarkLookup, hx] at h
      subst h
      simp [hx]
    · simp only [quarkLookup, hx, if_false, Option.map_eq_some'] at h
      rcases h with ⟨j, hj, rfl⟩
      simpa [List.get?] using ih hj

theorem quarkLookup_lt {qt : List String} {s : String} {i : Nat}
    (h : quarkLookup qt s = some i) : i < qt.length := by
  have := quarkLookup_get? h
  exact List.get?_eq_some.mp this |>.1

theorem quarkLookup_append_self {qt : List String} {s : String}
    (h : quarkLookup qt s = none) :
    quarkLookup (qt ++ [s]) s = some qt.length := by
  induction qt with
  | nil => simp [quarkLookup]
  | cons x xs ih =>
    by_cases hx : x = s
    · simp [quarkLookup, hx] at h
    · simp only [quarkLookup, hx, if_false, Option.map_eq_none'] at h
      simp [quarkLookup, hx, ih h]

theorem quarkLookup_append_ne {qt : List String} {t s : String} (h : t ≠ s) :
    quarkLookup (qt ++ [t]) s = quarkLookup qt s := by
  induction qt with
  | nil => simp [quarkLookup, h]
  | cons x xs ih =>
    by_cases hx : x = s
    · simp [quarkLookup, hx]
    · simp [quarkLookup, hx, ih]

theorem quark_pair (qt : List String) (t1 t2 : String) :
    ((g_quark_from_string (g_quark_from_string qt t1).2 t2).1 =
      (g_quark_from_string qt t1).1 ↔ t1 = t2) := by
  unfold g_quark_from_string
  rcases h1 : quarkLookup qt t1 with _ | i
  · -- t1 is new: it is appended, its quark is qt.length + 1
    by_cases heq : t1 = t2
    · subst heq
      rw [quarkLookup_append_self h1]
      simp
    · rw [quarkLookup_append_ne heq]
      rcases h2 : quarkLookup qt t2 with _ | j
      · simp only [h1, h2]
        simp [List.length_append, heq]
      · have hj := quarkLookup_lt h2
        simp only [h1, h2]
        simp [heq]
        omega
  · -- t1 already interned at index i
    have hi := quarkLookup_lt h1
    rcases h2 : quarkLookup qt t2 with _ | j
    · have hne : t1 ≠ t2 := by
        intro he; rw [he, h2] at h1; exact Option.noConfusion h1
      simp only [h1, h2]
      simp [hne]
      omega
    · simp only [h1, h2]
      by_cases heq : t1 = t2
      · subst heq
        rw [h2] at h1
        injection h1 with hji
        simp [hji]
      · have hg1 := quarkLookup_get? h1
        have hg2 := quarkLookup_get? h2
        have hij : j ≠ i := by
          intro he
          rw [he, hg1] at hg2
          injection hg2 with hts
          exact heq hts
        simp [heq]
        omega

theorem nsa_state_flag (env : Bool) (caps : List String) (st : ActionCacheState) :
    (NotifierSupportsActions env caps st).state.notify_has_result =
      st.notify_has_result := by
  unfold NotifierSupportsActions
  split
  · rfl
  · split
    · rfl
    · rfl

theorem runCalls_flag (calls : List (Bool × List String)) (st : ActionCacheState)
    (h : st.notify_has_result = false) :
    (runCalls calls st).notify_has_result = false := by
  induction calls generalizing st with
  | nil => exact h
  | cons c rest ih =>
    simp only [runCalls]
    exact ih _ (by rw [nsa_state_flag]; exact h)

/-! ## Claim theorems -/

/-- Claim C1: every `Show` call emits exactly one of the two delegate
signals — one `displayed` and no `failed` when `notify_notification_show`
reports no error, one `failed` and no `displayed` when it reports one. -/
theorem C1_show_signal_exclusive (env : Bool) (caps : List String)
    (st : ActionCacheState) (title body tag : String)
    (iconDN silent showError : Bool) (qt : List String) (hdl : Nat) :
    (Show env caps st title body tag iconDN silent showError qt hdl).signals.count
        Signal.displayed = (if showError then 0 else 1) ∧
    (Show env caps st title body tag iconDN silent showError qt hdl).signals.count
        Signal.failed = (if showError then 1 else 0) := by
  cases showError <;> simp [Show] <;> decide

/-- Claim C2: `Initialize` tries `libnotify.so.4`, `libnotify.so.1`,
`libnotify.so` in that fixed order and stops at the first successful bind;
it returns `false` iff no candidate binds, or one binds but
`notify_is_initted` reports false and `notify_init` fails. -/
theorem C2_initialize_order_and_result (load : String → Bool) (ii io : Bool) :
    ((tryLoad load initCandidates).2 =
      if load "libnotify.so.4" then ["libnotify.so.4"]
      else if load "libnotify.so.1" then ["libnotify.so.4", "libnotify.so.1"]
      else ["libnotify.so.4", "libnotify.so.1", "libnotify.so"]) ∧
    (libnotifyInit load ii io = false ↔
      (initCandidates.any load = false ∨
        (initCandidates.any load = true ∧ ii = false ∧ io = false))) := by
  cases h4 : load "libnotify.so.4" <;> cases h1 : load "libnotify.so.1" <;>
    cases h0 : load "libnotify.so" <;> cases ii <;> cases io <;>
    simp [libnotifyInit, tryLoad, initCandidates, h4, h1, h0]

/-- Claim C3: in every reachable state of the static cache and for every
advertised capability set, the action-support predicate returns `false`
when `ELECTRON_USE_UBUNTU_NOTIFIER` is set (even if "actions" is
advertised), and otherwise returns exactly `HasCapability "actions"`. -/
theorem C3_supports_actions_override (caps : List String)
    (calls : List (Bool × List String)) :
    (NotifierSupportsActions true caps
        (runCalls calls initialActionCacheState)).result = false ∧
    (NotifierSupportsActions false caps
        (runCalls calls initialActionCacheState)).result =
      HasCapability caps "actions" := by
  have hf := runCalls_flag calls initialActionCacheState rfl
  exact ⟨by simp [NotifierSupportsActions], by simp [NotifierSupportsActions, hf]⟩

/-- Claim C4: `HasCapability name` answers `true` iff `name` is an exact
(case-sensitive) member of the queried capability list, and answers
`false` (without crashing) on the empty list. -/
theorem C4_has_capability_membership (caps : List String) (name : String) :
    (HasCapability caps name = true ↔ name ∈ caps) ∧
    HasCapability [] name = false := by
  exact ⟨hasCapability_iff_mem caps name, rfl⟩

/-- Claim C5: the `notify_has_result` flag is never set to `true` — it is
`false` in every reachable state and every call leaves it unchanged — so
with the override unset each call performs exactly one live capability
query and the predicate is observationally equal to the always-recompute
definition `SupportsActionButtonsRecompute`. -/
theorem C5_no_cache_reuse (calls : List (Bool × List String)) (env : Bool)
    (caps : List String) :
    (runCalls calls initialActionCacheState).notify_has_result = false ∧
    (NotifierSupportsActions env caps
        (runCalls calls initialActionCacheState)).state.notify_has_result =
      false ∧
    (NotifierSupportsActions env caps
        (runCalls calls initialActionCacheState)).result =
      SupportsActionButtonsRecompute env caps ∧
    (NotifierSupportsActions env caps
        (runCalls calls initialActionCacheState)).capQueries =
      (if env then 0 else 1) := by
  have hf := runCalls_flag calls initialActionCacheState rfl
  refine ⟨hf, ?_, ?_, ?_⟩ <;>
    cases env <;>
    simp [NotifierSupportsActions, SupportsActionButtonsRecompute, hf,
      nsa_state_flag]

/-- Claim C6: `Dismiss` itself emits no delegate signal; on a native close
error it immediately destroys the notification locally and the whole
scenario emits zero `dismissed` signals; on success the later closed
callback emits exactly one `dismissed` signal and no local destroy
happens. -/
theorem C6_dismiss_signals (closeError : Bool) :
    (Dismiss closeError).signals = [] ∧
    (dismissScenario closeError).2 = closeError ∧
    (dismissScenario closeError).1.count Signal.dismissed =
      (if closeError then 0 else 1) := by
  cases closeError
  · simp [Dismiss, dismissScenario, OnNotificationClosed]
    decide
  · simp [Dismiss, dismissScenario, OnNotificationClosed]

/-- Claim C7: on every `Show` call, independently of the tag, the "append"
hint is set when the service advertises "append", else the
"x-canonical-append" hint when it advertises that, else no hint — and
never both. -/
theorem C7_append_hints (env : Bool) (caps : List String)
    (st : ActionCacheState) (title body tag tag2 : String)
    (iconDN silent showError : Bool) (qt : List String) (hdl : Nat) :
    ((Show env caps st title body tag iconDN silent showError qt hdl).hints =
      if HasCapability caps "append" then ["append"]
      else if HasCapability caps "x-canonical-append" then
        ["x-canonical-append"]
      else []) ∧
    ¬("append" ∈
        (Show env caps st title body tag iconDN silent showError qt hdl).hints ∧
      "x-canonical-append" ∈
        (Show env caps st title body tag iconDN silent showError qt hdl).hints) ∧
    (Show env caps st title body tag iconDN silent showError qt hdl).hints =
      (Show env caps st title body tag2 iconDN silent showError qt hdl).hints := by
  refine ⟨rfl, ?_, rfl⟩
  cases ha : HasCapability caps "append" <;>
    cases hx : HasCapability caps "x-canonical-append" <;>
    simp [Show, ha, hx]

/-- Claim C8: tag interning is deterministic and injective on non-empty
tags — two sequential `Show` calls assign equal quarks iff their non-empty
tags are equal — and an empty tag assigns no identity. -/
theorem C8_tag_interning (env : Bool) (caps : List String)
    (st : ActionCacheState) (title body tag1 tag2 : String)
    (iconDN silent showError : Bool) (qt : List String) (hdl1 hdl2 : Nat)
    (ht1 : tag1 ≠ "") (ht2 : tag2 ≠ "") :
    (∃ q1 q2,
      (Show env caps st title body tag1 iconDN silent showError qt
        hdl1).idAssigned = some q1 ∧
      (Show env caps
        (Show env caps st title body tag1 iconDN silent showError qt
          hdl1).cacheState
        title body tag2 iconDN silent showError
        (Show env caps st title body tag1 iconDN silent showError qt
          hdl1).quarkTable hdl2).idAssigned = some q2 ∧
      (q1 = q2 ↔ tag1 = tag2)) ∧
    (Show env caps st title body "" iconDN silent showError qt
      hdl1).idAssigned = none := by
  refine ⟨⟨(g_quark_from_string qt tag1).1,
    (g_quark_from_string (g_quark_from_string qt tag1).2 tag2).1,
    ?_, ?_, ?_⟩, ?_⟩
  · simp [Show, ht1]
  · simp [Show, ht1, ht2]
  · rw [eq_comm]; exact quark_pair qt tag1 tag2
  · simp [Show]

/-- Claim C8 witness: the interning property at concrete inputs — two
`Show` calls with tags "a" then "b" on an empty quark table get distinct
identities, and an empty tag gets none. -/
theorem C8_tag_interning_witness :
    (∃ q1 q2,
      (Show false [] initialActionCacheState "t" "b" "a" true false false []
        1).idAssigned = some q1 ∧
      (Show false []
        (Show false [] initialActionCacheState "t" "b" "a" true false false []
          1).cacheState
        "t" "b" "b" true false false
        (Show false [] initialActionCacheState "t" "b" "a" true false false []
          1).quarkTable 2).idAssigned = some q2 ∧
      (q1 = q2 ↔ ("a" : String) = "b")) ∧
    (Show false [] initialActionCacheState "t" "b" "" true false false []
      1).idAssigned = none :=
  C8_tag_interning false [] initialActionCacheState "t" "b" "a" "b" true false
    false [] 1 2 (by decide) (by decide)

/-- Claim C9 evaluation: the destructor run on a notification whose `Show`
was never called (so `notification_` still holds the constructor's null)
passes the null handle to `g_signal_handlers_disconnect_by_data` and
`g_object_unref`, both invalid operations on a `NULL` instance. -/
theorem C9_destructor_null_handle :
    destructorOps ctorNotificationField =
      [GObjOp.disconnectByData none, GObjOp.unref none] ∧
    (destructorOps ctorNotificationField).all gobjOpValid = false := by
  decide

/-- Claim C10: with the override flag set, the action-support predicate
returns `false` with zero live capability queries, so its result is the
same for any two service capability sets. -/
theorem C10_override_no_query (caps1 caps2 : List String)
    (st : ActionCacheState) :
    (NotifierSupportsActions true caps1 st).result =
      (NotifierSupportsActions true caps2 st).result ∧
    (NotifierSupportsActions true caps1 st).capQueries = 0 ∧
    (NotifierSupportsActions true caps1 st).result = false := by
  simp [NotifierSupportsActions]

end Brightray
